import Mathlib

set_option maxHeartbeats 1000000

/-!
Shallow embedding of the asset-app-backend repository: an Express HTTP API
over a Postgres store with two tables, users and assets.  The repository
contains several concatenated variants of the same server:

* namespace V1 models the first variant of src/server.js (lines 1-321);
* namespace V2 models the second variant of src/server.js (lines 322-499);
* namespace P0 models src/unnamed/part_000.

The store is modelled as a value of type DB: the two tables as lists of rows
in physical (heap) order, plus the serial id counters.  The store enforces a
uniqueness constraint on users.username and a composite uniqueness constraint
on assets(assetprefix, assetnumber); a violating insert or update is the
Postgres error 23505, modelled as SqlErr.uniqueViolation.  SQL NULL and an
absent JSON field are both modelled as none.  Responses are modelled as a
status code plus a JSON body whose object keys are explicit strings, so that
claims about which fields a body carries are expressible.

Identifier note: the column assetprefix is named assetpfx here (and the JSON
key assetPrefix is named assetPfx); the JSON-level strings keep the real
names.
-/

/-- One row of the users table: users(id, username, password, role). -/
structure UserRow where
  id : Nat
  username : String
  password : String
  role : String
deriving DecidableEq

/-- One row of the assets table, all data columns nullable (the schema has no
NOT NULL constraints, only the uniqueness constraints).  Field assetpfx is
the column assetprefix. -/
structure AssetRow where
  id : Nat
  assetpfx : Option String
  assetnumber : Option String
  assetname : Option String
  category : Option String
  status : Option String
  employeename : Option String
  employeecode : Option String
  cugmobile : Option String
  department : Option String
  designation : Option String
  date : Option String
  assetmake : Option String
  assetserial : Option String
  location : Option String
  notes : Option String
deriving DecidableEq

/-- The relational store: both tables in heap order plus serial counters. -/
structure DB where
  users : List UserRow
  assets : List AssetRow
  nextUserId : Nat
  nextAssetId : Nat
deriving DecidableEq

/-- The store error signal the handlers inspect: err.code 23505. -/
inductive SqlErr where
  | uniqueViolation
deriving DecidableEq

/-- A JSON scalar value as produced by the handlers. -/
inductive Jval where
  | s (v : String)
  | n (v : Nat)
  | nul
deriving DecidableEq

/-- A JSON object: ordered key-value pairs. -/
abbrev Jobj := List (String × Jval)

/-- A response body: an object, an array of objects, or empty (res.send()). -/
inductive Jbody where
  | obj (o : Jobj)
  | arr (rows : List Jobj)
  | empty
deriving DecidableEq

/-- An HTTP response: status code and JSON body. -/
structure Response where
  status : Nat
  body : Jbody
deriving DecidableEq

/-- JavaScript truthiness of a possibly-absent string field: undefined, null
and the empty string are falsy; every other string is truthy. -/
def truthy : Option String → Bool
  | none => false
  | some s => !(s == "")

/-- Serialize an optional column value: NULL becomes JSON null. -/
def optVal : Option String → Jval
  | none => Jval.nul
  | some s => Jval.s s

/-- The public projection of a user row: SELECT id, username, role (also the
shape RETURNING id, username, role and the login response body build). -/
def userPublic (u : UserRow) : Jobj :=
  [("id", Jval.n u.id), ("username", Jval.s u.username), ("role", Jval.s u.role)]

/-- Serialization of a full asset row, as returned by SELECT * / RETURNING *:
lowercase column-name keys. -/
def assetObj (a : AssetRow) : Jobj :=
  [("id", Jval.n a.id),
   ("assetprefix", optVal a.assetpfx),
   ("assetnumber", optVal a.assetnumber),
   ("assetname", optVal a.assetname),
   ("category", optVal a.category),
   ("status", optVal a.status),
   ("employeename", optVal a.employeename),
   ("employeecode", optVal a.employeecode),
   ("cugmobile", optVal a.cugmobile),
   ("department", optVal a.department),
   ("designation", optVal a.designation),
   ("date", optVal a.date),
   ("assetmake", optVal a.assetmake),
   ("assetserial", optVal a.assetserial),
   ("location", optVal a.location),
   ("notes", optVal a.notes)]

/-- Keys of an object are exactly id, username, role (no password). -/
def pubKeys (o : Jobj) : Bool :=
  o.map Prod.fst == ["id", "username", "role"]

/-- A body carries only the public user fields id, username, role. -/
def bodyPubOnly : Jbody → Bool
  | Jbody.obj o => pubKeys o
  | Jbody.arr rows => rows.all pubKeys
  | Jbody.empty => true

/-- SELECT * FROM users WHERE username = $1, taking rows[0]. -/
def selectUserByUsername (db : DB) (u : String) : Option UserRow :=
  db.users.find? (fun r => r.username == u)

/-- Does a row with this username already exist (the unique constraint on
users.username)? -/
def usernameTaken (rows : List UserRow) (u : String) : Bool :=
  rows.any (fun r => r.username == u)

/-- INSERT INTO users (username, password, role) VALUES ... RETURNING
id, username, role.  Fails with the 23505 signal when the username is
taken. -/
def insertUser (db : DB) (u p role : String) : Except SqlErr (DB × UserRow) :=
  if usernameTaken db.users u then Except.error SqlErr.uniqueViolation
  else
    Except.ok (⟨db.users ++ [⟨db.nextUserId, u, p, role⟩], db.assets,
                db.nextUserId + 1, db.nextAssetId⟩,
               ⟨db.nextUserId, u, p, role⟩)

/-- Replace the role of a user row, keeping every other column. -/
def setRole (r : UserRow) (x : String) : UserRow :=
  ⟨r.id, r.username, r.password, x⟩

/-- Replace the password and role of a user row, keeping every other
column. -/
def setPwRole (r : UserRow) (p x : String) : UserRow :=
  ⟨r.id, r.username, p, x⟩

/-- UPDATE users SET role = $1 WHERE id = $2 RETURNING ...: the new store
plus the updated rows. -/
def sqlUpdateUserRole (db : DB) (role : String) (id : Nat) : DB × List UserRow :=
  let rows := db.users.map (fun r => if r.id == id then setRole r role else r)
  (⟨rows, db.assets, db.nextUserId, db.nextAssetId⟩,
   rows.filter (fun r => r.id == id))

/-- UPDATE users SET password = $1, role = $2 WHERE id = $3 RETURNING ...:
the new store plus the updated rows. -/
def sqlUpdateUserPwRole (db : DB) (p role : String) (id : Nat) : DB × List UserRow :=
  let rows := db.users.map (fun r => if r.id == id then setPwRole r p role else r)
  (⟨rows, db.assets, db.nextUserId, db.nextAssetId⟩,
   rows.filter (fun r => r.id == id))

/-- DELETE FROM users WHERE id = $1 RETURNING ...: the new store plus the
deleted rows. -/
def sqlDeleteUser (db : DB) (id : Nat) : DB × List UserRow :=
  (⟨db.users.filter (fun r => r.id != id), db.assets,
    db.nextUserId, db.nextAssetId⟩,
   db.users.filter (fun r => r.id == id))

/-- DELETE FROM assets WHERE id = $1 RETURNING ...: the new store plus the
deleted rows. -/
def sqlDeleteAsset (db : DB) (id : Nat) : DB × List AssetRow :=
  (⟨db.users, db.assets.filter (fun r => r.id != id),
    db.nextUserId, db.nextAssetId⟩,
   db.assets.filter (fun r => r.id == id))

/-- The mixed-case JSON body of an asset create/update request as read by the
first server.js variant (13 fields; location and notes are not read).  Field
assetPfx is the JSON key assetPrefix. -/
structure AssetBody where
  assetPfx : Option String
  assetNumber : Option String
  assetName : Option String
  category : Option String
  status : Option String
  employeeName : Option String
  employeeCode : Option String
  cugMobile : Option String
  department : Option String
  designation : Option String
  date : Option String
  assetMake : Option String
  assetSerial : Option String
deriving DecidableEq

/-- Composite unique constraint on assets(assetprefix, assetnumber): a new
pair conflicts when both parts are non-NULL and some row already carries the
same pair (SQL UNIQUE treats NULLs as distinct). -/
def assetPairTaken (rows : List AssetRow) (p n : Option String) : Bool :=
  p.isSome && n.isSome &&
    rows.any (fun r => r.assetpfx == p && r.assetnumber == n)

/-- The same constraint during an UPDATE of row id: only a different row with
the same non-NULL pair conflicts. -/
def assetPairTakenOther (rows : List AssetRow) (p n : Option String) (id : Nat) : Bool :=
  p.isSome && n.isSome &&
    rows.any (fun r => r.id != id && r.assetpfx == p && r.assetnumber == n)

/-- The row built by the 13-column INSERT INTO assets of the first server.js
variant: columns location and notes are not in the column list and default to
NULL. -/
def insertedAsset (db : DB) (b : AssetBody) : AssetRow :=
  ⟨db.nextAssetId, b.assetPfx, b.assetNumber, b.assetName, b.category,
   b.status, b.employeeName, b.employeeCode, b.cugMobile, b.department,
   b.designation, b.date, b.assetMake, b.assetSerial, none, none⟩

/-- INSERT INTO assets (... 13 columns ...) VALUES ... RETURNING *.  Fails
with the 23505 signal when the (assetprefix, assetnumber) pair is taken. -/
def insertAsset (db : DB) (b : AssetBody) : Except SqlErr (DB × AssetRow) :=
  if assetPairTaken db.assets b.assetPfx b.assetNumber then
    Except.error SqlErr.uniqueViolation
  else
    Except.ok (⟨db.users, db.assets ++ [insertedAsset db b],
                db.nextUserId, db.nextAssetId + 1⟩,
               insertedAsset db b)

/-- Overwrite the 13 updated columns of an asset row, keeping id, location
and notes. -/
def updateAssetRow (b : AssetBody) (r : AssetRow) : AssetRow :=
  ⟨r.id, b.assetPfx, b.assetNumber, b.assetName, b.category, b.status,
   b.employeeName, b.employeeCode, b.cugMobile, b.department, b.designation,
   b.date, b.assetMake, b.assetSerial, r.location, r.notes⟩

/-- UPDATE assets SET ... WHERE id = $14 RETURNING *: the new store plus the
updated rows, or the 23505 signal when the new pair collides with a different
row. -/
def sqlUpdateAsset (db : DB) (b : AssetBody) (id : Nat) :
    Except SqlErr (DB × List AssetRow) :=
  if db.assets.any (fun r => r.id == id) then
    if assetPairTakenOther db.assets b.assetPfx b.assetNumber id then
      Except.error SqlErr.uniqueViolation
    else
      Except.ok (⟨db.users,
                  db.assets.map (fun r => if r.id == id then updateAssetRow b r else r),
                  db.nextUserId, db.nextAssetId⟩,
                 (db.assets.map (fun r => if r.id == id then updateAssetRow b r else r)).filter
                   (fun r => r.id == id))
  else Except.ok (db, [])

/-- SELECT * FROM assets: the heap order of the store. -/
def selectAssets (db : DB) : List AssetRow :=
  db.assets

/-- SELECT * FROM assets ORDER BY id ASC. -/
def selectAssetsOrdered (db : DB) : List AssetRow :=
  List.insertionSort (fun a b => a.id ≤ b.id) db.assets

instance : IsTotal AssetRow (fun a b => a.id ≤ b.id) :=
  ⟨fun a b => Nat.le_total a.id b.id⟩

instance : IsTrans AssetRow (fun a b => a.id ≤ b.id) :=
  ⟨fun _ _ _ h h2 => Nat.le_trans h h2⟩

/-- The body of POST /api/login. -/
structure LoginBody where
  username : Option String
  password : Option String
deriving DecidableEq

/-- The body of POST /api/users. -/
structure UserBody where
  username : Option String
  password : Option String
  role : Option String
deriving DecidableEq

/-- The body of PUT /api/users/:id. -/
structure PutUserBody where
  password : Option String
  role : Option String
deriving DecidableEq

/-- The one-of-two-statements choice of PUT /api/users/:id: the password
branch tests JavaScript truthiness of the supplied password. -/
def userUpdateSql (db : DB) (b : PutUserBody) (id : Nat) : DB × List UserRow :=
  if truthy b.password then
    sqlUpdateUserPwRole db (b.password.getD "") (b.role.getD "") id
  else
    sqlUpdateUserRole db (b.role.getD "") id

/-- Turn the rows of an update RETURNING into the response: empty means 404
User not found, else 200 with the first row projected. -/
def rowsToUserResp (rows : List UserRow) : Response :=
  match rows with
  | [] => ⟨404, Jbody.obj [("error", Jval.s "User not found")]⟩
  | row :: _ => ⟨200, Jbody.obj (userPublic row)⟩

/-- Turn the rows of a user DELETE RETURNING into the response: empty means
404, else 204 No Content. -/
def delUserResp (rows : List UserRow) : Response :=
  match rows with
  | [] => ⟨404, Jbody.obj [("error", Jval.s "User not found")]⟩
  | _ :: _ => ⟨204, Jbody.empty⟩

/-- Turn the rows of an asset DELETE RETURNING into the response: empty means
404, else 204 No Content. -/
def delAssetResp (rows : List AssetRow) : Response :=
  match rows with
  | [] => ⟨404, Jbody.obj [("error", Jval.s "Asset not found")]⟩
  | _ :: _ => ⟨204, Jbody.empty⟩

namespace V1

/-- POST /api/login of the first server.js variant (lines 80-111). -/
def login (b : LoginBody) (db : DB) : Response × DB :=
  if !(truthy b.username && truthy b.password) then
    (⟨400, Jbody.obj [("error", Jval.s "Username and password are required")]⟩, db)
  else
    match selectUserByUsername db (b.username.getD "") with
    | none =>
        (⟨401, Jbody.obj [("error", Jval.s "Invalid username or password")]⟩, db)
    | some user =>
        if user.password != b.password.getD "" then
          (⟨401, Jbody.obj [("error", Jval.s "Invalid username or password")]⟩, db)
        else
          (⟨200, Jbody.obj (userPublic user)⟩, db)

/-- GET /api/users of the first server.js variant (lines 121-129). -/
def getUsers (db : DB) : Response × DB :=
  (⟨200, Jbody.arr (db.users.map userPublic)⟩, db)

/-- POST /api/users of the first server.js variant (lines 132-151). -/
def createUser (b : UserBody) (db : DB) : Response × DB :=
  if !(truthy b.username && truthy b.password && truthy b.role) then
    (⟨400, Jbody.obj [("error", Jval.s "Username, password, and role are required")]⟩, db)
  else
    match insertUser db (b.username.getD "") (b.password.getD "") (b.role.getD "") with
    | Except.error SqlErr.uniqueViolation =>
        (⟨409, Jbody.obj [("error", Jval.s "Username already exists")]⟩, db)
    | Except.ok (db2, row) =>
        (⟨201, Jbody.obj (userPublic row)⟩, db2)

/-- PUT /api/users/:id of the first server.js variant (lines 154-187): role
required; the password branch tests JavaScript truthiness. -/
def updateUser (id : Nat) (b : PutUserBody) (db : DB) : Response × DB :=
  if !(truthy b.role) then
    (⟨400, Jbody.obj [("error", Jval.s "Role is required")]⟩, db)
  else
    (rowsToUserResp (userUpdateSql db b id).2, (userUpdateSql db b id).1)

/-- DELETE /api/users/:id of the first server.js variant (lines 190-203). -/
def deleteUser (id : Nat) (db : DB) : Response × DB :=
  (delUserResp (sqlDeleteUser db id).2, (sqlDeleteUser db id).1)

/-- GET /api/assets of the first server.js variant (lines 209-218): SELECT *
with no ORDER BY. -/
def getAssets (db : DB) : Response × DB :=
  (⟨200, Jbody.arr ((selectAssets db).map assetObj)⟩, db)

/-- POST /api/assets of the first server.js variant (lines 221-253): no field
validation, 13-column insert, 23505 mapped to 409. -/
def createAsset (b : AssetBody) (db : DB) : Response × DB :=
  match insertAsset db b with
  | Except.error SqlErr.uniqueViolation =>
      (⟨409, Jbody.obj [("error", Jval.s "This asset number already exists")]⟩, db)
  | Except.ok (db2, row) =>
      (⟨201, Jbody.obj (assetObj row)⟩, db2)

/-- PUT /api/assets/:id of the first server.js variant (lines 256-295). -/
def updateAsset (id : Nat) (b : AssetBody) (db : DB) : Response × DB :=
  match sqlUpdateAsset db b id with
  | Except.error SqlErr.uniqueViolation =>
      (⟨409, Jbody.obj [("error", Jval.s "This asset number already exists")]⟩, db)
  | Except.ok (db2, []) =>
      (⟨404, Jbody.obj [("error", Jval.s "Asset not found")]⟩, db2)
  | Except.ok (db2, row :: _) =>
      (⟨200, Jbody.obj (assetObj row)⟩, db2)

end V1

namespace V2

/-- DELETE /api/users/:id of the second server.js variant (lines 428-436):
the delete result is never inspected and the response is always 204. -/
def deleteUser (id : Nat) (db : DB) : Response × DB :=
  (⟨204, Jbody.empty⟩, (sqlDeleteUser db id).1)

/-- GET /api/assets of the second server.js variant (lines 438-446):
SELECT * FROM assets ORDER BY id ASC. -/
def getAssets (db : DB) : Response × DB :=
  (⟨200, Jbody.arr ((selectAssetsOrdered db).map assetObj)⟩, db)

end V2

namespace P0

/-- POST /api/login of src/unnamed/part_000 (lines 70-88): single query on
username AND password; the found row is returned with the password key
deleted. -/
def login (b : LoginBody) (db : DB) : Response × DB :=
  if !(truthy b.username && truthy b.password) then
    (⟨400, Jbody.obj [("error", Jval.s "Username and password required")]⟩, db)
  else
    match db.users.find?
        (fun r => r.username == b.username.getD "" && r.password == b.password.getD "") with
    | some user =>
        (⟨200, Jbody.obj (userPublic user)⟩, db)
    | none =>
        (⟨401, Jbody.obj [("error", Jval.s "Invalid username or password")]⟩, db)

/-- DELETE /api/users/:id of src/unnamed/part_000 (lines 153-171): a
pre-check rejects the admin row with 403, otherwise the delete result decides
204 versus 404. -/
def deleteUser (id : Nat) (db : DB) : Response × DB :=
  if (db.users.find? (fun r => r.id == id)).any (fun u => u.username == "admin") then
    (⟨403, Jbody.obj [("error", Jval.s "Cannot delete the main admin account")]⟩, db)
  else
    (delUserResp (sqlDeleteUser db id).2, (sqlDeleteUser db id).1)

/-- GET /api/assets of src/unnamed/part_000 (lines 177-185):
SELECT * FROM assets ORDER BY id ASC. -/
def getAssets (db : DB) : Response × DB :=
  (⟨200, Jbody.arr ((selectAssetsOrdered db).map assetObj)⟩, db)

/-- DELETE /api/assets/:id of src/unnamed/part_000 (lines 257-270). -/
def deleteAsset (id : Nat) (db : DB) : Response × DB :=
  (delAssetResp (sqlDeleteAsset db id).2, (sqlDeleteAsset db id).1)

end P0

/-! ## Helper lemmas -/

/-- find? commutes with a map that preserves the tested predicate. -/
theorem find?_map_pred (f : UserRow → UserRow) (p : UserRow → Bool)
    (hp : ∀ x, p (f x) = p x) (l : List UserRow) :
    (l.map f).find? p = (l.find? p).map f := by
  induction l with
  | nil => rfl
  | cons a t ih =>
    cases hpa : p a with
    | true =>
      have hfa : p (f a) = true := by rw [hp]; exact hpa
      simp [List.find?_cons, hpa, hfa]
    | false =>
      have hfa : p (f a) = false := by rw [hp]; exact hpa
      simp [List.find?_cons, hpa, hfa, ih]

/-- A row satisfying the filter predicate survives a predicate-preserving
map, so the filtered list is nonempty. -/
theorem filter_map_ne_nil (f : UserRow → UserRow) (p : UserRow → Bool)
    (hp : ∀ x, p (f x) = p x) (l : List UserRow) (u : UserRow)
    (hu : u ∈ l) (hpu : p u = true) : (l.map f).filter p ≠ [] := by
  intro h
  have hm : f u ∈ l.map f := List.mem_map_of_mem f hu
  have hfu : p (f u) = true := by rw [hp]; exact hpu
  exact (List.filter_eq_nil_iff.mp h (f u) hm) hfu

/-- A nonempty RETURNING row list yields the 200 branch. -/
theorem rowsToUserResp_status_of_ne_nil (rows : List UserRow) (h : rows ≠ []) :
    (rowsToUserResp rows).status = 200 := by
  cases rows with
  | nil => exact absurd rfl h
  | cons a t => rfl

/-! ## Claims -/

/-- C10: a PUT /api/users/:id body carrying a role and an empty-string
password is handled exactly as if no password were supplied, because the
password branch tests JavaScript truthiness: only the role column is updated
and every stored password is unchanged. -/
theorem c10_empty_password_is_role_only (db : DB) (i : Nat) (r : String)
    (hr : r ≠ "") :
    V1.updateUser i ⟨some "", some r⟩ db = V1.updateUser i ⟨none, some r⟩ db
    ∧ (V1.updateUser i ⟨some "", some r⟩ db).2.users
        = db.users.map (fun x => if x.id == i then setRole x r else x) := by
  have htr : truthy (some r) = true := by simp [truthy, hr]
  constructor
  · simp [V1.updateUser, userUpdateSql, truthy]
  · simp [V1.updateUser, userUpdateSql, truthy, hr, sqlUpdateUserRole]

/-- C10 witness: concrete one-user store, empty-string password body. -/
theorem c10_witness :
    V1.updateUser 1 ⟨some "", some "admin"⟩ ⟨[⟨1, "alice", "secret", "user"⟩], [], 2, 1⟩
      = V1.updateUser 1 ⟨none, some "admin"⟩ ⟨[⟨1, "alice", "secret", "user"⟩], [], 2, 1⟩ :=
  (c10_empty_password_is_role_only ⟨[⟨1, "alice", "secret", "user"⟩], [], 2, 1⟩ 1 "admin"
    (by decide)).1

/-- C8 counterexample: the first server.js variant reads the assets with
SELECT * and no ORDER BY, so it returns the rows in the physical store order.
Postgres keeps no id order in the heap (updates and deletes relocate rows),
so a store holding the row with id 2 before the row with id 1 is returned in
that unsorted order, refuting the claim that every listing is ascending by
id. -/
theorem c8_unsorted_cex :
    (V1.getAssets ⟨[],
        [⟨2, none, none, none, none, none, none, none, none, none, none, none, none, none, none, none⟩,
         ⟨1, none, none, none, none, none, none, none, none, none, none, none, none, none, none, none⟩],
        1, 3⟩).1.body
      = Jbody.arr
          [assetObj ⟨2, none, none, none, none, none, none, none, none, none, none, none, none, none, none, none⟩,
           assetObj ⟨1, none, none, none, none, none, none, none, none, none, none, none, none, none, none, none⟩]
    ∧ ¬ ((2 : Nat) ≤ 1) := by
  exact ⟨rfl, by decide⟩

/-- C8 (amended): the asset listings that issue
SELECT * FROM assets ORDER BY id ASC (the second server.js variant and
part_000) return all asset rows in ascending id order for every store state;
the first server.js variant issues no ORDER BY and merely returns the rows in
store order. -/
theorem c8_ordered_listing (db : DB) :
    V2.getAssets db = (⟨200, Jbody.arr ((selectAssetsOrdered db).map assetObj)⟩, db)
    ∧ P0.getAssets db = V2.getAssets db
    ∧ List.Pairwise (fun a b : AssetRow => a.id ≤ b.id) (selectAssetsOrdered db)
    ∧ (selectAssetsOrdered db).Perm db.assets := by
  refine ⟨rfl, rfl, ?_, ?_⟩
  · exact List.sorted_insertionSort (fun a b => a.id ≤ b.id) db.assets
  · exact List.perm_insertionSort (fun a b => a.id ≤ b.id) db.assets

/-- C4 counterexample: the second server.js variant never inspects the delete
result and answers 204 even for an id absent from the store, refuting the
claim that a delete of an absent id returns 404. -/
theorem c4_always_204_cex :
    V2.deleteUser 1 ⟨[], [], 1, 1⟩ = (⟨204, Jbody.empty⟩, ⟨[], [], 1, 1⟩)
    ∧ ¬ ((V2.deleteUser 1 ⟨[], [], 1, 1⟩).1.status = 404) := by
  exact ⟨rfl, by decide⟩

/-- C1 counterexample: a PUT /api/users/:id whose body carries the password
"" (a present password field) leaves the stored password "secret" untouched
instead of overwriting it with the supplied value, because the handler tests
truthiness rather than key presence. -/
theorem c1_empty_password_cex :
    ((V1.updateUser 1 ⟨some "", some "admin"⟩
        ⟨[⟨1, "alice", "secret", "user"⟩], [], 2, 1⟩).2.users.find?
        (fun x => x.id == 1)).map UserRow.password = some "secret"
    ∧ ¬ (("secret" : String) = "") := by
  exact ⟨rfl, by decide⟩

/-- C2 counterexample: no variant protects the admin row from PUT
/api/users/:id: updating the admin row succeeds with 200 and changes its
role, refuting the claim that such a request is rejected with 403 or 404 and
leaves the row unchanged. -/
theorem c2_admin_put_cex :
    (V1.updateUser 1 ⟨none, some "user"⟩ ⟨[⟨1, "admin", "pw", "admin"⟩], [], 2, 1⟩).1.status = 200
    ∧ ¬ ((V1.updateUser 1 ⟨none, some "user"⟩ ⟨[⟨1, "admin", "pw", "admin"⟩], [], 2, 1⟩).1.status = 403
         ∨ (V1.updateUser 1 ⟨none, some "user"⟩ ⟨[⟨1, "admin", "pw", "admin"⟩], [], 2, 1⟩).1.status = 404)
    ∧ (V1.updateUser 1 ⟨none, some "user"⟩ ⟨[⟨1, "admin", "pw", "admin"⟩], [], 2, 1⟩).2.users
        = [⟨1, "admin", "pw", "user"⟩] := by
  refine ⟨rfl, by decide, rfl⟩

/-- C6 counterexample: the asset create handler of the first server.js
variant performs no field validation: a request missing every required asset
field is not answered with 400 but reaches the store and inserts a row of
NULLs (the schema carries only the uniqueness constraints). -/
theorem c6_no_asset_validation_cex :
    (V1.createAsset ⟨none, none, none, none, none, none, none, none, none, none, none, none, none⟩
        ⟨[], [], 1, 1⟩).1.status = 201
    ∧ ¬ ((V1.createAsset ⟨none, none, none, none, none, none, none, none, none, none, none, none, none⟩
        ⟨[], [], 1, 1⟩).1.status = 400)
    ∧ ¬ ((V1.createAsset ⟨none, none, none, none, none, none, none, none, none, none, none, none, none⟩
        ⟨[], [], 1, 1⟩).2 = ⟨[], [], 1, 1⟩) := by
  refine ⟨rfl, by decide, by decide⟩

/-- C6 (amended): a login, create-user or update-user request with a missing
or empty required field is answered 400 before any SQL statement runs, so the
store is returned unchanged; the asset create handler of the first server.js
variant, however, performs no field validation and never answers 400 — it
attempts the insert regardless. -/
theorem c6_validation_400 (db : DB) (lb : LoginBody) (ub : UserBody)
    (pb : PutUserBody) (i : Nat) (ab : AssetBody)
    (hl : (truthy lb.username && truthy lb.password) = false)
    (hc : (truthy ub.username && truthy ub.password && truthy ub.role) = false)
    (hp : truthy pb.role = false) :
    V1.login lb db
      = (⟨400, Jbody.obj [("error", Jval.s "Username and password are required")]⟩, db)
    ∧ V1.createUser ub db
      = (⟨400, Jbody.obj [("error", Jval.s "Username, password, and role are required")]⟩, db)
    ∧ V1.updateUser i pb db
      = (⟨400, Jbody.obj [("error", Jval.s "Role is required")]⟩, db)
    ∧ ¬ ((V1.createAsset ab db).1.status = 400) := by
  refine ⟨?_, ?_, ?_, ?_⟩
  · simp [V1.login, hl]
  · simp [V1.createUser, hc]
  · simp [V1.updateUser, hp]
  · cases hins : insertAsset db ab with
    | error e => cases e; simp [V1.createAsset, hins]
    | ok q =>
      obtain ⟨db2, row⟩ := q
      simp [V1.createAsset, hins]

/-- C6 witness: an empty login body is rejected with 400 and the store is
untouched. -/
theorem c6_witness :
    V1.login ⟨none, none⟩ ⟨[], [], 1, 1⟩
      = (⟨400, Jbody.obj [("error", Jval.s "Username and password are required")]⟩,
         ⟨[], [], 1, 1⟩) :=
  (c6_validation_400 ⟨[], [], 1, 1⟩ ⟨none, none⟩ ⟨none, none, none⟩ ⟨none, none⟩ 1
    ⟨none, none, none, none, none, none, none, none, none, none, none, none, none⟩
    (by decide) (by decide) (by decide)).1

/-- C4 (amended): in the handlers that inspect the delete result (user delete
of the first server.js variant, asset delete of part_000) a delete of an
absent id answers 404 and leaves the store unchanged, and of two consecutive
deletes of the same existing user id the first answers 204 and the second
404 with the store unchanged; the user delete of the second server.js
variant answers 204 unconditionally instead. -/
theorem c4_delete_404 (db : DB) (i j k : Nat)
    (habs : db.users.all (fun x => x.id != i) = true)
    (haabs : db.assets.all (fun x => x.id != j) = true)
    (hex : db.users.any (fun x => x.id == k) = true) :
    V1.deleteUser i db = (⟨404, Jbody.obj [("error", Jval.s "User not found")]⟩, db)
    ∧ P0.deleteAsset j db = (⟨404, Jbody.obj [("error", Jval.s "Asset not found")]⟩, db)
    ∧ (V1.deleteUser k db).1.status = 204
    ∧ V1.deleteUser k (V1.deleteUser k db).2
        = (⟨404, Jbody.obj [("error", Jval.s "User not found")]⟩, (V1.deleteUser k db).2) := by
  have hfe : db.users.filter (fun x => x.id == i) = [] := by
    rw [List.filter_eq_nil_iff]
    intro a ha
    have h1 := List.all_eq_true.mp habs a ha
    simp only [bne_iff_ne, ne_eq] at h1
    simp [h1]
  have hfs : db.users.filter (fun x => x.id != i) = db.users :=
    List.filter_eq_self.mpr (List.all_eq_true.mp habs)
  have hafe : db.assets.filter (fun x => x.id == j) = [] := by
    rw [List.filter_eq_nil_iff]
    intro a ha
    have h1 := List.all_eq_true.mp haabs a ha
    simp only [bne_iff_ne, ne_eq] at h1
    simp [h1]
  have hafs : db.assets.filter (fun x => x.id != j) = db.assets :=
    List.filter_eq_self.mpr (List.all_eq_true.mp haabs)
  have h2 : (db.users.filter (fun x => x.id != k)).filter (fun x => x.id == k) = [] := by
    rw [List.filter_eq_nil_iff]
    intro a ha
    have h1 := (List.mem_filter.mp ha).2
    simp only [bne_iff_ne, ne_eq] at h1
    simp [h1]
  have h3 : (db.users.filter (fun x => x.id != k)).filter (fun x => x.id != k)
      = db.users.filter (fun x => x.id != k) :=
    List.filter_eq_self.mpr (fun a ha => (List.mem_filter.mp ha).2)
  obtain ⟨x, hx, hxk⟩ := List.any_eq_true.mp hex
  have hxf : x ∈ db.users.filter (fun y => y.id == k) := List.mem_filter.mpr ⟨hx, hxk⟩
  refine ⟨?_, ?_, ?_, ?_⟩
  · simp [V1.deleteUser, sqlDeleteUser, hfe, hfs, delUserResp]
  · simp [P0.deleteAsset, sqlDeleteAsset, hafe, hafs, delAssetResp]
  · cases hcase : db.users.filter (fun y => y.id == k) with
    | nil => rw [hcase] at hxf; cases hxf
    | cons a t => simp [V1.deleteUser, sqlDeleteUser, hcase, delUserResp]
  · simp [V1.deleteUser, sqlDeleteUser, h2, h3, delUserResp]

/-- C4 witness: one stored user with id 1; deleting the absent id 9 gives
404 and deleting id 1 twice gives 204 then 404. -/
theorem c4_witness :
    V1.deleteUser 9 ⟨[⟨1, "alice", "pw", "user"⟩], [], 2, 1⟩
      = (⟨404, Jbody.obj [("error", Jval.s "User not found")]⟩,
         ⟨[⟨1, "alice", "pw", "user"⟩], [], 2, 1⟩) :=
  (c4_delete_404 ⟨[⟨1, "alice", "pw", "user"⟩], [], 2, 1⟩ 9 9 1
    (by decide) (by decide) (by decide)).1

/-- C3: a create-user request whose username is already stored, a
create-asset request whose (assetprefix, assetnumber) pair is already stored,
and an update-asset request that would move a row onto another row's pair all
surface the store's unique-constraint signal (error code 23505) as status
409 and leave the store unchanged. -/
theorem c3_conflict_409 (db : DB) (u p r : String)
    (hu : u ≠ "") (hp : p ≠ "") (hr : r ≠ "")
    (htaken : usernameTaken db.users u = true)
    (b : AssetBody)
    (hat : assetPairTaken db.assets b.assetPfx b.assetNumber = true)
    (i : Nat) (hex : db.assets.any (fun x => x.id == i) = true)
    (hother : assetPairTakenOther db.assets b.assetPfx b.assetNumber i = true) :
    V1.createUser ⟨some u, some p, some r⟩ db
      = (⟨409, Jbody.obj [("error", Jval.s "Username already exists")]⟩, db)
    ∧ V1.createAsset b db
      = (⟨409, Jbody.obj [("error", Jval.s "This asset number already exists")]⟩, db)
    ∧ V1.updateAsset i b db
      = (⟨409, Jbody.obj [("error", Jval.s "This asset number already exists")]⟩, db) := by
  refine ⟨?_, ?_, ?_⟩
  · simp [V1.createUser, truthy, hu, hp, hr, insertUser, htaken]
  · simp [V1.createAsset, insertAsset, hat]
  · simp [V1.updateAsset, sqlUpdateAsset, hex, hother]

/-- C3 witness: a store with user bob and two assets; re-creating bob, re-
creating the pair (LT, 001), and moving asset 2 onto that pair each give
409 with the store unchanged. -/
theorem c3_witness :
    V1.createUser ⟨some "bob", some "x", some "user"⟩
        ⟨[⟨1, "bob", "x", "user"⟩],
         [⟨1, some "LT", some "001", none, none, none, none, none, none, none, none, none, none, none, none, none⟩,
          ⟨2, some "PC", some "002", none, none, none, none, none, none, none, none, none, none, none, none, none⟩],
         2, 3⟩
      = (⟨409, Jbody.obj [("error", Jval.s "Username already exists")]⟩,
         ⟨[⟨1, "bob", "x", "user"⟩],
          [⟨1, some "LT", some "001", none, none, none, none, none, none, none, none, none, none, none, none, none⟩,
           ⟨2, some "PC", some "002", none, none, none, none, none, none, none, none, none, none, none, none, none⟩],
          2, 3⟩) :=
  (c3_conflict_409
    ⟨[⟨1, "bob", "x", "user"⟩],
     [⟨1, some "LT", some "001", none, none, none, none, none, none, none, none, none, none, none, none, none⟩,
      ⟨2, some "PC", some "002", none, none, none, none, none, none, none, none, none, none, none, none, none⟩],
     2, 3⟩
    "bob" "x" "user" (by decide) (by decide) (by decide) (by decide)
    ⟨some "LT", some "001", none, none, none, none, none, none, none, none, none, none, none⟩
    (by decide) 2 (by decide) (by decide)).1

/-- C5: every successful response of POST /api/login, GET /api/users,
POST /api/users and PUT /api/users/:id carries exactly the keys id, username
and role — in particular never a password key — because login builds the body
from those three fields and the other handlers run
SELECT/RETURNING id, username, role. -/
theorem c5_no_password_leak (lb : LoginBody) (ub : UserBody) (pb : PutUserBody)
    (i : Nat) (db : DB) :
    ((V1.login lb db).1.status = 200 → bodyPubOnly (V1.login lb db).1.body = true)
    ∧ bodyPubOnly (V1.getUsers db).1.body = true
    ∧ ((V1.createUser ub db).1.status = 201 → bodyPubOnly (V1.createUser ub db).1.body = true)
    ∧ ((V1.updateUser i pb db).1.status = 200 → bodyPubOnly (V1.updateUser i pb db).1.body = true) := by
  refine ⟨?_, ?_, ?_, ?_⟩
  · unfold V1.login
    split
    · intro h; simp at h
    · cases hfind : selectUserByUsername db (lb.username.getD "") with
      | none => intro h; simp [hfind] at h
      | some user =>
        simp only [hfind]
        split
        · intro h; simp at h
        · intro _
          simp [bodyPubOnly, pubKeys, userPublic]
  · simp only [V1.getUsers, bodyPubOnly]
    rw [List.all_eq_true]
    intro o ho
    obtain ⟨u, _, rfl⟩ := List.mem_map.mp ho
    simp [pubKeys, userPublic]
  · unfold V1.createUser
    split
    · intro h; simp at h
    · cases hins : insertUser db (ub.username.getD "") (ub.password.getD "") (ub.role.getD "") with
      | error e => cases e; intro h; simp [hins] at h
      | ok q =>
        obtain ⟨db2, row⟩ := q
        intro _
        simp [hins, bodyPubOnly, pubKeys, userPublic]
  · unfold V1.updateUser
    split
    · intro h; simp at h
    · cases hrows : (userUpdateSql db pb i).2 with
      | nil => intro h; simp [hrows, rowsToUserResp] at h
      | cons a t =>
        intro _
        simp [hrows, rowsToUserResp, bodyPubOnly, pubKeys, userPublic]

/-- C5 witness: a successful login against a one-user store returns a body
with only the public keys. -/
theorem c5_witness :
    bodyPubOnly (V1.login ⟨some "alice", some "pw"⟩
        ⟨[⟨1, "alice", "pw", "user"⟩], [], 2, 1⟩).1.body = true :=
  (c5_no_password_leak ⟨some "alice", some "pw"⟩ ⟨none, none, none⟩ ⟨none, none⟩ 1
    ⟨[⟨1, "alice", "pw", "user"⟩], [], 2, 1⟩).1 (by decide)

/-- C9: the two failing login cases with both fields present — username
matching no stored user, and username matching a stored user whose password
differs — produce the same response in both modelled login variants: status
401 with the identical body, revealing nothing about which credential was
wrong.  The hypothesis hp0 is justified by the unique constraint on
username: the only row with the second username carries a different
password. -/
theorem c9_uniform_login_failure (db : DB) (u1 p1 u2 p2 : String)
    (h1u : u1 ≠ "") (h1p : p1 ≠ "") (h2u : u2 ≠ "") (h2p : p2 ≠ "")
    (hno : selectUserByUsername db u1 = none)
    (w : UserRow) (hw : selectUserByUsername db u2 = some w) (hpw : w.password ≠ p2)
    (hp0 : db.users.find? (fun x => x.username == u2 && x.password == p2) = none) :
    V1.login ⟨some u1, some p1⟩ db
      = (⟨401, Jbody.obj [("error", Jval.s "Invalid username or password")]⟩, db)
    ∧ V1.login ⟨some u2, some p2⟩ db = V1.login ⟨some u1, some p1⟩ db
    ∧ P0.login ⟨some u1, some p1⟩ db
      = (⟨401, Jbody.obj [("error", Jval.s "Invalid username or password")]⟩, db)
    ∧ P0.login ⟨some u2, some p2⟩ db = P0.login ⟨some u1, some p1⟩ db := by
  have hp0b : db.users.find? (fun x => x.username == u1 && x.password == p1) = none := by
    rw [List.find?_eq_none]
    intro x hx
    have hx1 := List.find?_eq_none.mp hno x hx
    simp only [beq_iff_eq] at hx1 ⊢
    simp [hx1]
  have hbne : (w.password != p2) = true := by simp [hpw]
  refine ⟨?_, ?_, ?_, ?_⟩
  · simp [V1.login, truthy, h1u, h1p, hno]
  · simp [V1.login, truthy, h1u, h1p, h2u, h2p, hno, hw, hbne]
  · simp [P0.login, truthy, h1u, h1p, hp0b]
  · simp [P0.login, truthy, h1u, h1p, h2u, h2p, hp0, hp0b]

/-- C9 witness: against a store holding only alice, logging in as the unknown
bob and as alice with a wrong password both give the same 401 response. -/
theorem c9_witness :
    V1.login ⟨some "bob", some "x"⟩ ⟨[⟨1, "alice", "pw", "user"⟩], [], 2, 1⟩
      = (⟨401, Jbody.obj [("error", Jval.s "Invalid username or password")]⟩,
         ⟨[⟨1, "alice", "pw", "user"⟩], [], 2, 1⟩) :=
  (c9_uniform_login_failure ⟨[⟨1, "alice", "pw", "user"⟩], [], 2, 1⟩ "bob" "x" "alice" "wrong"
    (by decide) (by decide) (by decide) (by decide) (by decide)
    ⟨1, "alice", "pw", "user"⟩ (by decide) (by decide) (by decide)).1

/-- C7: a successful POST /api/assets (pair not yet taken) answers 201 with
the inserted row serialized under lowercase keys, the row is appended to the
store with the generated id, a following GET /api/assets lists it, and each
lowercase column of the new row equals the corresponding mixed-case input
field. -/
theorem c7_create_read_roundtrip (b : AssetBody) (db : DB)
    (h : assetPairTaken db.assets b.assetPfx b.assetNumber = false) :
    V1.createAsset b db
      = (⟨201, Jbody.obj (assetObj (insertedAsset db b))⟩,
         ⟨db.users, db.assets ++ [insertedAsset db b], db.nextUserId, db.nextAssetId + 1⟩)
    ∧ (V1.getAssets (V1.createAsset b db).2).1.body
        = Jbody.arr (db.assets.map assetObj ++ [assetObj (insertedAsset db b)])
    ∧ insertedAsset db b ∈ (V1.createAsset b db).2.assets
    ∧ (insertedAsset db b).id = db.nextAssetId
    ∧ (insertedAsset db b).assetpfx = b.assetPfx
    ∧ (insertedAsset db b).assetnumber = b.assetNumber
    ∧ (insertedAsset db b).assetname = b.assetName
    ∧ (insertedAsset db b).category = b.category
    ∧ (insertedAsset db b).status = b.status
    ∧ (insertedAsset db b).employeename = b.employeeName
    ∧ (insertedAsset db b).employeecode = b.employeeCode
    ∧ (insertedAsset db b).cugmobile = b.cugMobile
    ∧ (insertedAsset db b).department = b.department
    ∧ (insertedAsset db b).designation = b.designation
    ∧ (insertedAsset db b).date = b.date
    ∧ (insertedAsset db b).assetmake = b.assetMake
    ∧ (insertedAsset db b).assetserial = b.assetSerial := by
  have hca : V1.createAsset b db
      = (⟨201, Jbody.obj (assetObj (insertedAsset db b))⟩,
         ⟨db.users, db.assets ++ [insertedAsset db b], db.nextUserId, db.nextAssetId + 1⟩) := by
    simp [V1.createAsset, insertAsset, h]
  refine ⟨hca, ?_, ?_, rfl, rfl, rfl, rfl, rfl, rfl, rfl, rfl, rfl, rfl, rfl, rfl, rfl, rfl⟩
  · rw [hca]; simp [V1.getAssets, selectAssets]
  · rw [hca]; simp

/-- C7 witness: creating the spec scenario asset in an empty store. -/
theorem c7_witness :
    V1.createAsset
        ⟨some "LT", some "001", some "Dell Laptop", some "Laptop", some "Assigned",
         none, none, none, none, none, some "2024-01-01", none, none⟩
        ⟨[], [], 1, 1⟩
      = (⟨201, Jbody.obj (assetObj (insertedAsset ⟨[], [], 1, 1⟩
            ⟨some "LT", some "001", some "Dell Laptop", some "Laptop", some "Assigned",
             none, none, none, none, none, some "2024-01-01", none, none⟩))⟩,
         ⟨[], [insertedAsset ⟨[], [], 1, 1⟩
            ⟨some "LT", some "001", some "Dell Laptop", some "Laptop", some "Assigned",
             none, none, none, none, none, some "2024-01-01", none, none⟩], 1, 2⟩) :=
  (c7_create_read_roundtrip
    ⟨some "LT", some "001", some "Dell Laptop", some "Laptop", some "Assigned",
     none, none, none, none, none, some "2024-01-01", none, none⟩
    ⟨[], [], 1, 1⟩ (by decide)).1

/-- Evaluation of PUT /api/users/:id when the role is a nonempty string and
the password field is JS-falsy: the role-only UPDATE statement runs. -/
theorem updateUser_role_eq (db : DB) (id : Nat) (pw : Option String) (r : String)
    (hr : r ≠ "") (hpw : truthy pw = false) :
    V1.updateUser id ⟨pw, some r⟩ db
      = (rowsToUserResp
           ((db.users.map (fun x => if x.id == id then setRole x r else x)).filter
             (fun x => x.id == id)),
         ⟨db.users.map (fun x => if x.id == id then setRole x r else x), db.assets,
          db.nextUserId, db.nextAssetId⟩) := by
  have htr : truthy (some r) = true := by simp [truthy, hr]
  simp [V1.updateUser, userUpdateSql, htr, hpw, sqlUpdateUserRole]

/-- Evaluation of PUT /api/users/:id when the role and the password are both
nonempty strings: the password-and-role UPDATE statement runs. -/
theorem updateUser_pw_eq (db : DB) (id : Nat) (p r : String)
    (hp : p ≠ "") (hr : r ≠ "") :
    V1.updateUser id ⟨some p, some r⟩ db
      = (rowsToUserResp
           ((db.users.map (fun x => if x.id == id then setPwRole x p r else x)).filter
             (fun x => x.id == id)),
         ⟨db.users.map (fun x => if x.id == id then setPwRole x p r else x), db.assets,
          db.nextUserId, db.nextAssetId⟩) := by
  have htr : truthy (some r) = true := by simp [truthy, hr]
  have htp : truthy (some p) = true := by simp [truthy, hp]
  simp [V1.updateUser, userUpdateSql, htr, htp, sqlUpdateUserPwRole]

/-- The role-only row update preserves the id test. -/
theorem roleMap_keeps_id (idv : Nat) (r : String) (x : UserRow) :
    ((if x.id == idv then setRole x r else x).id == idv) = (x.id == idv) := by
  cases hx : x.id == idv <;> simp [hx, setRole]

/-- The role-only row update preserves the username test. -/
theorem roleMap_keeps_username (idv : Nat) (r : String) (u : String) (x : UserRow) :
    ((if x.id == idv then setRole x r else x).username == u) = (x.username == u) := by
  cases hx : x.id == idv <;> simp [hx, setRole]

/-- The password-and-role row update preserves the id test. -/
theorem pwMap_keeps_id (idv : Nat) (p r : String) (x : UserRow) :
    ((if x.id == idv then setPwRole x p r else x).id == idv) = (x.id == idv) := by
  cases hx : x.id == idv <;> simp [hx, setPwRole]

/-- Evaluation of POST /api/login on correct nonempty credentials. -/
theorem login_success (db : DB) (un pw : String) (hu : un ≠ "") (hp : pw ≠ "")
    (w : UserRow) (hsel : selectUserByUsername db un = some w) (hwp : w.password = pw) :
    V1.login ⟨some un, some pw⟩ db = (⟨200, Jbody.obj (userPublic w)⟩, db) := by
  simp [V1.login, truthy, hu, hp, hsel, hwp]

/-- C1 (amended): for a stored user u, a PUT /api/users/:id targeting u whose
body carries a nonempty role and a JS-falsy password (absent, or the empty
string) updates only the role: the stored password of u stays byte-for-byte
u.password (setRole keeps the password column) and a subsequent login with
u's original username and password succeeds with 200; when the body carries a
nonempty password p, the stored password equals p afterwards.  The find?
hypotheses say u is the row the store resolves for u's id and username (the
latter is unique by constraint). -/
theorem c1_update_password_semantics (db : DB) (u : UserRow) (r : String)
    (hr : r ≠ "") (hupw : u.password ≠ "") (huname : u.username ≠ "")
    (hidf : db.users.find? (fun x => x.id == u.id) = some u)
    (hunf : db.users.find? (fun x => x.username == u.username) = some u) :
    (∀ pw, truthy pw = false →
      (V1.updateUser u.id ⟨pw, some r⟩ db).2.users.find? (fun x => x.id == u.id)
          = some (setRole u r)
      ∧ V1.login ⟨some u.username, some u.password⟩ (V1.updateUser u.id ⟨pw, some r⟩ db).2
          = (⟨200, Jbody.obj (userPublic (setRole u r))⟩,
             (V1.updateUser u.id ⟨pw, some r⟩ db).2))
    ∧ (∀ p, p ≠ "" →
        (V1.updateUser u.id ⟨some p, some r⟩ db).2.users.find? (fun x => x.id == u.id)
          = some (setPwRole u p r)) := by
  have hmemu : u ∈ db.users := List.mem_of_find?_eq_some hidf
  constructor
  · intro pw hpw
    rw [updateUser_role_eq db u.id pw r hr hpw]
    have hfind :
        (db.users.map (fun x => if x.id == u.id then setRole x r else x)).find?
            (fun x => x.id == u.id) = some (setRole u r) := by
      rw [find?_map_pred (fun x => if x.id == u.id then setRole x r else x)
            (fun x => x.id == u.id) (roleMap_keeps_id u.id r) db.users, hidf]
      simp
    have hsel :
        selectUserByUsername
            ⟨db.users.map (fun x => if x.id == u.id then setRole x r else x), db.assets,
             db.nextUserId, db.nextAssetId⟩ u.username = some (setRole u r) := by
      show (db.users.map (fun x => if x.id == u.id then setRole x r else x)).find?
          (fun x => x.username == u.username) = some (setRole u r)
      rw [find?_map_pred (fun x => if x.id == u.id then setRole x r else x)
            (fun x => x.username == u.username)
            (roleMap_keeps_username u.id r u.username) db.users, hunf]
      simp
    refine ⟨hfind, ?_⟩
    exact login_success _ u.username u.password huname hupw (setRole u r) hsel rfl
  · intro p hpne
    rw [updateUser_pw_eq db u.id p r hpne hr]
    rw [find?_map_pred (fun x => if x.id == u.id then setPwRole x p r else x)
          (fun x => x.id == u.id) (pwMap_keeps_id u.id p r) db.users, hidf]
    simp

/-- C1 witness: role-only update of alice keeps her password and she can
still log in; a nonempty password overwrites. -/
theorem c1_witness :
    (V1.updateUser 1 ⟨none, some "editor"⟩
        ⟨[⟨1, "alice", "pw", "user"⟩], [], 2, 1⟩).2.users.find? (fun x => x.id == 1)
      = some (setRole ⟨1, "alice", "pw", "user"⟩ "editor") :=
  ((c1_update_password_semantics ⟨[⟨1, "alice", "pw", "user"⟩], [], 2, 1⟩
      ⟨1, "alice", "pw", "user"⟩ "editor"
      (by decide) (by decide) (by decide) (by decide) (by decide)).1
    none (by decide)).1

/-- C2 (amended): the part_000 user delete rejects the admin row with 403
and leaves the store unchanged; the PUT /api/users/:id handler does not
protect the admin row — it answers 200 and applies the role update to it
like to any other row. -/
theorem c2_admin_protection (db : DB) (u : UserRow) (r : String)
    (hu : db.users.find? (fun x => x.id == u.id) = some u)
    (ha : u.username = "admin") (hr : r ≠ "") :
    P0.deleteUser u.id db
      = (⟨403, Jbody.obj [("error", Jval.s "Cannot delete the main admin account")]⟩, db)
    ∧ (V1.updateUser u.id ⟨none, some r⟩ db).1.status = 200
    ∧ (V1.updateUser u.id ⟨none, some r⟩ db).2.users
        = db.users.map (fun x => if x.id == u.id then setRole x r else x) := by
  have hmemu : u ∈ db.users := List.mem_of_find?_eq_some hu
  have hself : (u.id == u.id) = true := by simp
  have hne :
      (db.users.map (fun x => if x.id == u.id then setRole x r else x)).filter
          (fun x => x.id == u.id) ≠ [] :=
    filter_map_ne_nil (fun x => if x.id == u.id then setRole x r else x)
      (fun x => x.id == u.id) (roleMap_keeps_id u.id r) db.users u hmemu hself
  refine ⟨?_, ?_, ?_⟩
  · simp [P0.deleteUser, hu, ha]
  · rw [updateUser_role_eq db u.id none r hr rfl]
    exact rowsToUserResp_status_of_ne_nil _ hne
  · rw [updateUser_role_eq db u.id none r hr rfl]

/-- C2 witness: a store whose admin row has id 1: deleting it gives 403 and
no change. -/
theorem c2_witness :
    P0.deleteUser 1 ⟨[⟨1, "admin", "pw", "admin"⟩], [], 2, 1⟩
      = (⟨403, Jbody.obj [("error", Jval.s "Cannot delete the main admin account")]⟩,
         ⟨[⟨1, "admin", "pw", "admin"⟩], [], 2, 1⟩) :=
  (c2_admin_protection ⟨[⟨1, "admin", "pw", "admin"⟩], [], 2, 1⟩
    ⟨1, "admin", "pw", "admin"⟩ "user" (by decide) (by decide) (by decide)).1
